import Mathlib

/-! Shallow embedding of the UPPAAL timed-automata parser type checker
(src/typechecker.cc of libutap) together with theorems about its behaviour.
Collaborator interfaces that live outside the given source (expression.cc,
the interpreter and its range arithmetic) are modelled from the spec and
marked as such in their doc comments. -/

namespace UTAP

/-- Severity of an emitted diagnostic: handleError or handleWarning. -/
inductive Sev where
  | error
  | warning
deriving DecidableEq, Repr

/-- Type prefixes of type_t: CONSTANT, REFERENCE, URGENT, BROADCAST. -/
structure Pre where
  constant : Bool
  reference : Bool
  urgent : Bool
  broadcast : Bool
deriving DecidableEq, Repr

/-- The empty prefix set. -/
def noPre : Pre := ⟨false, false, false, false⟩

/-- Base tags of type_t. -/
inductive Base where
  | void
  | int
  | bool
  | clock
  | channel
  | array
  | record
  | diff
  | invariant
  | guard
  | constraint
  | func
deriving DecidableEq, Repr

/-- Expression kinds (Constants::kind_t), as enumerated by the spec. -/
inductive Kind where
  | CONSTANT
  | IDENTIFIER
  | ARRAY
  | DOT
  | LIST
  | PLUS
  | MINUS
  | MULT
  | DIV
  | MOD
  | BIT_AND
  | BIT_OR
  | BIT_XOR
  | BIT_LSHIFT
  | BIT_RSHIFT
  | AND
  | OR
  | NOT
  | MIN
  | MAX
  | LT
  | LE
  | EQ
  | NEQ
  | GE
  | GT
  | ASSIGN
  | ASSPLUS
  | ASSMINUS
  | ASSDIV
  | ASSMOD
  | ASSMULT
  | ASSAND
  | ASSOR
  | ASSXOR
  | ASSLSHIFT
  | ASSRSHIFT
  | POSTINCREMENT
  | PREINCREMENT
  | POSTDECREMENT
  | PREDECREMENT
  | UNARY_MINUS
  | INLINEIF
  | COMMA
  | FUNCALL
  | LEADSTO
  | SYNC
deriving DecidableEq, Repr

/-- Synchronisation direction of a SYNC expression: SYNC_BANG is send (!),
SYNC_QUE is receive (?). -/
inductive SyncDir where
  | bang
  | que
deriving DecidableEq, Repr

mutual

/-- Types (type_t): a base tag together with a prefix set; INT carries its
two range bound expressions (both empty means unbounded), ARRAY its size
expression and subtype, RECORD its frame and FUNCTION its parameter frame. -/
inductive Ty : Type where
  | void (p : Pre)
  | int (p : Pre) (lo : Expr) (hi : Expr)
  | bool (p : Pre)
  | clock (p : Pre)
  | channel (p : Pre)
  | array (p : Pre) (size : Expr) (sub : Ty)
  | record (p : Pre) (frame : Frame)
  | diff (p : Pre)
  | invariant (p : Pre)
  | guard (p : Pre)
  | constraint (p : Pre)
  | func (p : Pre) (params : Frame)

/-- Frames (frame_t): a nominal identity plus the ordered fields. Two
frames compare equal in the source iff they are the very same frame
object; that identity is modelled by the fid component. -/
inductive Frame : Type where
  | mk (fid : Nat) (fields : FieldList)

/-- Cons list of frame entries. -/
inductive FieldList : Type where
  | nil
  | cons (f : Field) (rest : FieldList)

/-- One frame entry: an optional name and a type. -/
inductive Field : Type where
  | mk (name : Option String) (ty : Ty)

/-- Symbols (symbol_t): identity plus declared type; symbol equality is
identity, modelled by the sid component. -/
inductive Symbol : Type where
  | mk (sid : Nat) (ty : Ty)

/-- Expressions (expression_t): a possibly-empty handle; a node carries its
kind, its type slot, an optional resolved symbol, a constant value, a sync
direction (meaningful for SYNC nodes only) and its children. -/
inductive Expr : Type where
  | empty
  | node (kind : Kind) (ty : Ty) (sym : Option Symbol) (val : Int)
      (sdir : SyncDir) (children : ExprList)

/-- Cons list of expressions. -/
inductive ExprList : Type where
  | nil
  | cons (e : Expr) (rest : ExprList)

end

/-- Prefix set of a type (type_t::hasPrefix reads it). -/
def Ty.getPre : Ty → Pre
  | .void p => p
  | .int p _ _ => p
  | .bool p => p
  | .clock p => p
  | .channel p => p
  | .array p _ _ => p
  | .record p _ => p
  | .diff p => p
  | .invariant p => p
  | .guard p => p
  | .constraint p => p
  | .func p _ => p

/-- Base tag of a type (type_t::getBase). -/
def Ty.getBase : Ty → Base
  | .void _ => .void
  | .int _ _ _ => .int
  | .bool _ => .bool
  | .clock _ => .clock
  | .channel _ => .channel
  | .array _ _ _ => .array
  | .record _ _ => .record
  | .diff _ => .diff
  | .invariant _ => .invariant
  | .guard _ => .guard
  | .constraint _ => .constraint
  | .func _ _ => .func

/-- Declared range of an INT type (type_t::getRange); empty bounds on any
other base. -/
def Ty.getRange : Ty → Expr × Expr
  | .int _ lo hi => (lo, hi)
  | _ => (.empty, .empty)

/-- Size expression of an ARRAY type (type_t::getArraySize). -/
def Ty.getArraySize : Ty → Expr
  | .array _ s _ => s
  | _ => .empty

/-- Subtype of an ARRAY type (type_t::getSub). -/
def Ty.getSub : Ty → Ty
  | .array _ _ sub => sub
  | _ => .void noPre

/-- Record frame of a RECORD type (type_t::getRecordFields). -/
def Ty.getRecordFields : Ty → Frame
  | .record _ f => f
  | _ => .mk 0 .nil

/-- Parameter frame of a FUNCTION type (type_t::getParameters). -/
def Ty.getParameters : Ty → Frame
  | .func _ f => f
  | _ => .mk 0 .nil

/-- Frame identity. -/
def Frame.fid : Frame → Nat
  | .mk i _ => i

/-- Fields of a frame. -/
def Frame.fields : Frame → FieldList
  | .mk _ fs => fs

/-- Frame equality in the source (frame_t operator==) is object identity. -/
def Frame.sameAs (a b : Frame) : Bool := a.fid == b.fid

/-- Name of a frame entry. -/
def Field.name : Field → Option String
  | .mk n _ => n

/-- Type of a frame entry. -/
def Field.ty : Field → Ty
  | .mk _ t => t

/-- Number of fields (frame_t::getSize). -/
def FieldList.length : FieldList → Nat
  | .nil => 0
  | .cons _ r => r.length + 1

/-- Indexing into the fields (frame_t operator[]). -/
def FieldList.get : FieldList → Nat → Field
  | .nil, _ => .mk Option.none (.void noPre)
  | .cons f _, 0 => f
  | .cons _ r, i + 1 => r.get i

/-- Index of the field with the given name (frame_t::getIndexOf); the
source returns -1 when absent, modelled as Option.none. -/
def FieldList.idxOf : FieldList → String → Option Nat
  | .nil, _ => Option.none
  | .cons f r, nm =>
    if f.name == some nm then some 0 else (r.idxOf nm).map (fun i => i + 1)

/-- Symbol identity. -/
def Symbol.sid : Symbol → Nat
  | .mk i _ => i

/-- Declared type of a symbol (symbol_t::getType). -/
def Symbol.ty : Symbol → Ty
  | .mk _ t => t

/-- Emptiness of an expression handle (expression_t::empty). -/
def Expr.isEmptyE : Expr → Bool
  | .empty => true
  | .node .. => false

/-- Kind of an expression (expression_t::getKind). -/
def Expr.getKind : Expr → Kind
  | .empty => .CONSTANT
  | .node k _ _ _ _ _ => k

/-- Type slot of an expression (expression_t::getType). -/
def Expr.getType : Expr → Ty
  | .empty => .void noPre
  | .node _ t _ _ _ _ => t

/-- Constant value of an expression (expression_t::getValue). -/
def Expr.getValue : Expr → Int
  | .empty => 0
  | .node _ _ _ v _ _ => v

/-- Sync direction of a SYNC expression (expression_t::getSync). -/
def Expr.getSyncDir : Expr → SyncDir
  | .empty => .bang
  | .node _ _ _ _ d _ => d

/-- Children of an expression. -/
def Expr.children : Expr → ExprList
  | .empty => .nil
  | .node _ _ _ _ _ cs => cs

/-- Length of an expression list. -/
def ExprList.length : ExprList → Nat
  | .nil => 0
  | .cons _ r => r.length + 1

/-- Indexing into an expression list, empty when out of bounds. -/
def ExprList.get : ExprList → Nat → Expr
  | .nil, _ => .empty
  | .cons e _, 0 => e
  | .cons _ r, i + 1 => r.get i

/-- Tail of an expression list. -/
def ExprList.tail : ExprList → ExprList
  | .nil => .nil
  | .cons _ r => r

/-- Number of children (expression_t::getSize). -/
def Expr.getSize (e : Expr) : Nat := e.children.length

/-- Child access (expression_t operator[]). -/
def Expr.get (e : Expr) (i : Nat) : Expr := e.children.get i

/-- Rewriting the type slot of an expression (expression_t::setType). -/
def Expr.setType : Expr → Ty → Expr
  | .empty, _ => .empty
  | .node k _ s v d cs, t => .node k t s v d cs

/-- Modelled from the spec: expression_t::getSymbol (expression.cc is not
part of the given source) resolves the variable that an lvalue-like
expression designates: identifiers yield their symbol, field selections,
indexings, assignments and increments resolve through the designated
subexpression, a comma resolves through its right operand. -/
def Expr.getSymbolW : Expr → Option Symbol
  | .node .IDENTIFIER _ sym _ _ _ => sym
  | .node .DOT _ _ _ _ (.cons c0 _) => c0.getSymbolW
  | .node .ARRAY _ _ _ _ (.cons c0 _) => c0.getSymbolW
  | .node .PREINCREMENT _ _ _ _ (.cons c0 _) => c0.getSymbolW
  | .node .PREDECREMENT _ _ _ _ (.cons c0 _) => c0.getSymbolW
  | .node .POSTINCREMENT _ _ _ _ (.cons c0 _) => c0.getSymbolW
  | .node .POSTDECREMENT _ _ _ _ (.cons c0 _) => c0.getSymbolW
  | .node .ASSIGN _ _ _ _ (.cons c0 _) => c0.getSymbolW
  | .node .ASSPLUS _ _ _ _ (.cons c0 _) => c0.getSymbolW
  | .node .ASSMINUS _ _ _ _ (.cons c0 _) => c0.getSymbolW
  | .node .ASSDIV _ _ _ _ (.cons c0 _) => c0.getSymbolW
  | .node .ASSMOD _ _ _ _ (.cons c0 _) => c0.getSymbolW
  | .node .ASSMULT _ _ _ _ (.cons c0 _) => c0.getSymbolW
  | .node .ASSAND _ _ _ _ (.cons c0 _) => c0.getSymbolW
  | .node .ASSOR _ _ _ _ (.cons c0 _) => c0.getSymbolW
  | .node .ASSXOR _ _ _ _ (.cons c0 _) => c0.getSymbolW
  | .node .ASSLSHIFT _ _ _ _ (.cons c0 _) => c0.getSymbolW
  | .node .ASSRSHIFT _ _ _ _ (.cons c0 _) => c0.getSymbolW
  | .node .COMMA _ _ _ _ (.cons _ (.cons c1 _)) => c1.getSymbolW
  | _ => Option.none

/-- Declared type of an optional symbol, void when absent. -/
def symTyOf : Option Symbol → Ty
  | some s => s.ty
  | Option.none => .void noPre

/-- Kinds that modify their designated subexpression: assignments and
increments/decrements. -/
def isChangeKind : Kind → Bool
  | .ASSIGN | .ASSPLUS | .ASSMINUS | .ASSDIV | .ASSMOD | .ASSMULT
  | .ASSAND | .ASSOR | .ASSXOR | .ASSLSHIFT | .ASSRSHIFT
  | .POSTINCREMENT | .PREINCREMENT | .POSTDECREMENT | .PREDECREMENT => true
  | _ => false

mutual

/-- Modelled from the spec: expression_t::dependsOn — an expression depends
on the set iff it reads any symbol in it. -/
def Expr.dependsOn (pv : List Nat) : Expr → Bool
  | .empty => false
  | .node _ _ sym _ _ cs =>
    (match sym with
     | some s => pv.contains s.sid
     | Option.none => false) || ExprList.dependsOnL pv cs

/-- Pointwise dependsOn over children. -/
def ExprList.dependsOnL (pv : List Nat) : ExprList → Bool
  | .nil => false
  | .cons e r => Expr.dependsOn pv e || ExprList.dependsOnL pv r

end

mutual

/-- Modelled from the spec: expression_t::changesVariable — the expression
contains an assignment or increment/decrement whose target resolves to a
symbol in the set. -/
def Expr.changesVariable (pv : List Nat) : Expr → Bool
  | .empty => false
  | .node k _ _ _ _ cs =>
    (isChangeKind k &&
      (match (cs.get 0).getSymbolW with
       | some s => pv.contains s.sid
       | Option.none => false))
    || ExprList.changesL pv cs

/-- Pointwise changesVariable over children. -/
def ExprList.changesL (pv : List Nat) : ExprList → Bool
  | .nil => false
  | .cons e r => Expr.changesVariable pv e || ExprList.changesL pv r

end

mutual

/-- Modelled from the spec: expression_t::equal — syntactic (structural)
equality of expressions; symbols compare by identity, the annotated type
slot is not part of the syntax. -/
def Expr.equalE : Expr → Expr → Bool
  | .empty, .empty => true
  | .node k1 _ s1 v1 d1 cs1, .node k2 _ s2 v2 d2 cs2 =>
    k1 == k2
      && (match s1, s2 with
          | some a, some b => a.sid == b.sid
          | Option.none, Option.none => true
          | _, _ => false)
      && v1 == v2 && d1 == d2 && ExprList.equalL cs1 cs2
  | _, _ => false

/-- Pointwise syntactic equality of expression lists. -/
def ExprList.equalL : ExprList → ExprList → Bool
  | .nil, .nil => true
  | .cons a r, .cons b s => Expr.equalE a b && ExprList.equalL r s
  | _, _ => false

end

/-- TypeChecker::isInteger — the base is INT or BOOL. -/
def isInteger (e : Expr) : Bool :=
  e.getType.getBase == .int || e.getType.getBase == .bool

/-- TypeChecker::isClock. -/
def isClock (e : Expr) : Bool := e.getType.getBase == .clock

/-- TypeChecker::isRecord. -/
def isRecord (e : Expr) : Bool := e.getType.getBase == .record

/-- TypeChecker::isDiff. -/
def isDiff (e : Expr) : Bool := e.getType.getBase == .diff

/-- TypeChecker::isInvariant — empty, INVARIANT-based or integer. -/
def isInvariant (e : Expr) : Bool :=
  e.isEmptyE || e.getType.getBase == .invariant || isInteger e

/-- TypeChecker::isGuard — GUARD-based or a valid invariant. -/
def isGuard (e : Expr) : Bool :=
  e.getType.getBase == .guard || isInvariant e

/-- TypeChecker::isConstraint — CONSTRAINT-based or a valid guard. -/
def isConstraint (e : Expr) : Bool :=
  e.getType.getBase == .constraint || isGuard e

/-- TypeChecker::isSideEffectFree — does not change any persistent
variable; the persistent set is passed as the list of its symbol ids. -/
def isSideEffectFree (pv : List Nat) (e : Expr) : Bool :=
  !(Expr.changesVariable pv e)

/-- The bare type_t::INT value. -/
def tINT : Ty := .int noPre .empty .empty

/-- The bare type_t::BOOL value. -/
def tBOOL : Ty := .bool noPre

/-- The bare type_t::CLOCK value. -/
def tCLOCK : Ty := .clock noPre

/-- The bare type_t::DIFF value. -/
def tDIFF : Ty := .diff noPre

/-- The bare type_t::INVARIANT value. -/
def tINVARIANT : Ty := .invariant noPre

/-- The bare type_t::GUARD value. -/
def tGUARD : Ty := .guard noPre

/-- The bare type_t::CONSTRAINT value. -/
def tCONSTRAINT : Ty := .constraint noPre

/-- TypeChecker::typeOfBinaryNonInt — type of a binary operation with
non-integer operands; in the source the default-initialised type_t() is
the "no type" sentinel, modelled as Option.none. -/
def typeOfBinaryNonInt (left : Expr) (binaryop : Kind) (right : Expr) :
    Option Ty :=
  match binaryop with
  | .PLUS =>
    if isInteger left && isClock right || isClock left && isInteger right then
      some tCLOCK
    else if isDiff left && isInteger right || isInteger left && isDiff right then
      some tDIFF
    else Option.none
  | .MINUS =>
    if isClock left && isInteger right then
      some tCLOCK
    else if isDiff left && isInteger right || isInteger left && isDiff right
        || isClock left && isClock right then
      some tDIFF
    else Option.none
  | .AND =>
    if isInvariant left && isInvariant right then some tINVARIANT
    else if isGuard left && isGuard right then some tGUARD
    else if isConstraint left && isConstraint right then some tCONSTRAINT
    else Option.none
  | .OR =>
    if isConstraint left && isConstraint right then some tCONSTRAINT
    else Option.none
  | .LT | .LE =>
    if isClock left && isClock right || isClock left && isInteger right
        || isDiff left && isInteger right || isInteger left && isDiff right then
      some tINVARIANT
    else if isInteger left && isClock right then some tGUARD
    else Option.none
  | .EQ =>
    if isClock left && isClock right || isClock left && isInteger right
        || isInteger left && isClock right || isDiff left && isInteger right
        || isInteger left && isDiff right then
      some tGUARD
    else Option.none
  | .NEQ =>
    if isClock left && isClock right || isClock left && isInteger right
        || isInteger left && isClock right || isDiff left && isInteger right
        || isInteger left && isDiff right then
      some tCONSTRAINT
    else Option.none
  | .GE | .GT =>
    if isClock left && isClock right || isInteger left && isClock right
        || isDiff left && isInteger right || isInteger left && isDiff right then
      some tINVARIANT
    else if isClock left && isGuard right then some tGUARD
    else Option.none
  | _ => Option.none

/-- TypeChecker::areInlineIfCompatible — compatibility of the two result
arguments of an inline if. -/
def areInlineIfCompatible : Ty → Ty → Bool
  | .int _ _ _, elseArg =>
    elseArg.getBase == .int || elseArg.getBase == .bool
  | .bool _, elseArg =>
    elseArg.getBase == .int || elseArg.getBase == .bool
  | .clock _, elseArg => elseArg.getBase == .clock
  | .channel p, elseArg =>
    elseArg.getBase == .channel
      && (p.urgent == elseArg.getPre.urgent)
      && (p.broadcast == elseArg.getPre.broadcast)
  | .array _ sz sub, elseArg =>
    elseArg.getBase == .array
      && sz.equalE elseArg.getArraySize
      && areInlineIfCompatible sub elseArg.getSub
  | .record _ fr, elseArg =>
    elseArg.getBase == .record && fr.sameAs elseArg.getRecordFields
  | _, _ => false

/-- TypeChecker::areAssignmentCompatible — note that the record branch of
the source accepts exactly when the two frames are different. -/
def areAssignmentCompatible (lvalue rvalue : Ty) : Bool :=
  let lbase := lvalue.getBase
  let rbase := rvalue.getBase
  if lbase == .void then false
  else if lbase == .clock || lbase == .int || lbase == .bool then
    rbase == .int || rbase == .bool
  else if lbase == .record then
    rbase == .record && !(lvalue.getRecordFields.sameAs rvalue.getRecordFields)
  else false

/-- channelCapability — 0 for urgent channels, 1 for non-urgent broadcast
channels, 2 otherwise. -/
def channelCapability (t : Ty) : Nat :=
  if t.getPre.urgent then 0
  else if t.getPre.broadcast then 1
  else 2

/-- Stripping array layers from a type (the getSub while loops). -/
def Ty.stripArrays : Ty → Ty
  | .array _ _ sub => sub.stripArrays
  | t => t

/-- TypeChecker::isLHSValue — whether the expression designates a mutable
location. Note POSTINCREMENT and POSTDECREMENT are absent from the
recursive cases of the source and fall to the default. -/
def isLHSValue : Expr → Bool
  | .node .IDENTIFIER _ sym _ _ _ => !(symTyOf sym).getPre.constant
  | .node .DOT _ _ _ _ (.cons c0 _) => isLHSValue c0
  | .node .ARRAY _ _ _ _ (.cons c0 _) => isLHSValue c0
  | .node .PREINCREMENT _ _ _ _ (.cons c0 _) => isLHSValue c0
  | .node .PREDECREMENT _ _ _ _ (.cons c0 _) => isLHSValue c0
  | .node .ASSIGN _ _ _ _ (.cons c0 _) => isLHSValue c0
  | .node .ASSPLUS _ _ _ _ (.cons c0 _) => isLHSValue c0
  | .node .ASSMINUS _ _ _ _ (.cons c0 _) => isLHSValue c0
  | .node .ASSDIV _ _ _ _ (.cons c0 _) => isLHSValue c0
  | .node .ASSMOD _ _ _ _ (.cons c0 _) => isLHSValue c0
  | .node .ASSMULT _ _ _ _ (.cons c0 _) => isLHSValue c0
  | .node .ASSAND _ _ _ _ (.cons c0 _) => isLHSValue c0
  | .node .ASSOR _ _ _ _ (.cons c0 _) => isLHSValue c0
  | .node .ASSXOR _ _ _ _ (.cons c0 _) => isLHSValue c0
  | .node .ASSLSHIFT _ _ _ _ (.cons c0 _) => isLHSValue c0
  | .node .ASSRSHIFT _ _ _ _ (.cons c0 _) => isLHSValue c0
  | .node .INLINEIF _ _ _ _ (.cons _ (.cons c1 (.cons c2 _))) =>
    if !(isLHSValue c1) || !(isLHSValue c2) then false
    else
      let t := (symTyOf c1.getSymbolW).stripArrays
      let f := (symTyOf c2.getSymbolW).stripArrays
      !(t.getBase == .int)
        || (Expr.equalE t.getRange.1 f.getRange.1
            && Expr.equalE t.getRange.2 f.getRange.2)
  | .node .COMMA _ _ _ _ (.cons _ (.cons c1 _)) => isLHSValue c1
  | _ => false

/-- TypeChecker::isUniqueReference — like isLHSValue but the reference must
not depend on persistent variables: array indices must not depend on the
persistent set and an inline if is never unique. -/
def isUniqueReference (pv : List Nat) : Expr → Bool
  | .node .IDENTIFIER ty _ _ _ _ => !ty.getPre.constant
  | .node .DOT _ _ _ _ (.cons c0 _) => isUniqueReference pv c0
  | .node .ARRAY _ _ _ _ (.cons c0 rest) =>
    isUniqueReference pv c0 && !((rest.get 0).dependsOn pv)
  | .node .PREINCREMENT _ _ _ _ (.cons c0 _) => isUniqueReference pv c0
  | .node .PREDECREMENT _ _ _ _ (.cons c0 _) => isUniqueReference pv c0
  | .node .ASSIGN _ _ _ _ (.cons c0 _) => isUniqueReference pv c0
  | .node .ASSPLUS _ _ _ _ (.cons c0 _) => isUniqueReference pv c0
  | .node .ASSMINUS _ _ _ _ (.cons c0 _) => isUniqueReference pv c0
  | .node .ASSDIV _ _ _ _ (.cons c0 _) => isUniqueReference pv c0
  | .node .ASSMOD _ _ _ _ (.cons c0 _) => isUniqueReference pv c0
  | .node .ASSMULT _ _ _ _ (.cons c0 _) => isUniqueReference pv c0
  | .node .ASSAND _ _ _ _ (.cons c0 _) => isUniqueReference pv c0
  | .node .ASSOR _ _ _ _ (.cons c0 _) => isUniqueReference pv c0
  | .node .ASSXOR _ _ _ _ (.cons c0 _) => isUniqueReference pv c0
  | .node .ASSLSHIFT _ _ _ _ (.cons c0 _) => isUniqueReference pv c0
  | .node .ASSRSHIFT _ _ _ _ (.cons c0 _) => isUniqueReference pv c0
  | .node .INLINEIF _ _ _ _ _ => false
  | .node .COMMA _ _ _ _ (.cons _ (.cons c1 _)) => isUniqueReference pv c1
  | _ => false

/-- Modelled from the spec: range_t of the constant evaluator — an integer
interval with contains, intersect, isEmpty, join and equality. -/
structure Rng where
  lo : Int
  hi : Int
deriving DecidableEq, Repr

/-- Membership of a value in a range (range_t::contains(int)). -/
def Rng.containsI (r : Rng) (n : Int) : Bool :=
  decide (r.lo ≤ n) && decide (n ≤ r.hi)

/-- Containment of ranges (range_t::contains(range_t)). -/
def Rng.containsR (r s : Rng) : Bool :=
  decide (r.lo ≤ s.lo) && decide (s.hi ≤ r.hi)

/-- Intersection of ranges (range_t::intersect). -/
def Rng.intersect (r s : Rng) : Rng := ⟨max r.lo s.lo, min r.hi s.hi⟩

/-- Emptiness of a range (range_t::isEmpty). -/
def Rng.isEmptyR (r : Rng) : Bool := decide (r.hi < r.lo)

/-- The default-constructed empty range. -/
def Rng.emptyR : Rng := ⟨0, -1⟩

/-- Convex join of a range with one value (range_t::join). -/
def Rng.join (r : Rng) (v : Int) : Rng :=
  if r.isEmptyR then ⟨v, v⟩ else ⟨min r.lo v, max r.hi v⟩

/-- The constant evaluator (Interpreter). Evaluation may fail with a
recoverable InterpreterException, modelled as Option.none: evalInt is
evaluate(expression) and evalVec is evaluate(expression, vector) yielding
the flattened value vector of a structured argument. -/
structure Interp where
  evalInt : Expr → Option Int
  evalVec : Expr → Option (List Int)

/-- Interpreter::evaluate on a pair of range bound expressions; it fails
iff either bound fails to evaluate. -/
def Interp.evalRange (I : Interp) (r : Expr × Expr) : Option Rng :=
  match I.evalInt r.1, I.evalInt r.2 with
  | some lo, some hi => some ⟨lo, hi⟩
  | _, _ => Option.none

/-- An interpreter on which every evaluation fails. -/
def failInterp : Interp := ⟨fun _ => Option.none, fun _ => Option.none⟩

/-- A diagnostic sent to the error handler: severity, the expression whose
position is reported, and the message. -/
structure Diag where
  sev : Sev
  pos : Expr
  msg : String

/-- handleError. -/
def mkError (e : Expr) (m : String) : Diag := ⟨.error, e, m⟩

/-- handleWarning. -/
def mkWarning (e : Expr) (m : String) : Diag := ⟨.warning, e, m⟩

/-- Number of error diagnostics carrying a given message. -/
def countMsg (m : String) (ds : List Diag) : Nat :=
  (ds.filter (fun d => d.sev == Sev.error && d.msg == m)).length

/-- expression_t::createConstant. -/
def constExpr (n : Int) : Expr :=
  .node .CONSTANT tINT Option.none n .bang .nil

/-- The per-base rules of TypeChecker::checkParameterCompatible after the
array layers have been stripped: the base-equality requirement followed by
the clock/bool, integer-range, record and channel rules. For integer
ranges an evaluator failure falls back to the syntactic comparison for
reference parameters and is ignored otherwise. -/
def checkParamBase (I : Interp) (paramType argType : Ty) (lhs ref constant : Bool)
    (arg : Expr) : List Diag :=
  if paramType.getBase != argType.getBase then
    [mkError arg "Incompatible argument"]
  else if paramType.getBase == .clock || paramType.getBase == .bool then []
  else if paramType.getBase == .int then
    if (paramType.getRange).1.isEmptyE then []
    else if lhs then
      match I.evalRange paramType.getRange, I.evalRange argType.getRange with
      | some paramRange, some argRange =>
        if ref && !constant && argRange != paramRange then
          [mkError arg "Range of argument does not match range of formal parameter"]
        else if ref && constant && !(paramRange.containsR argRange) then
          [mkError arg "Range of argument is outside of the range of the formal parameter"]
        else if (paramRange.intersect argRange).isEmptyR then
          [mkError arg "Range of argument is outside of the range of the formal parameter"]
        else []
      | _, _ =>
        if ref then
          if !(Expr.equalE (paramType.getRange).1 (argType.getRange).1)
              || !(Expr.equalE (paramType.getRange).2 (argType.getRange).2) then
            [mkError arg "Range of argument does not match range of formal parameter"]
          else []
        else []
    else
      match I.evalRange paramType.getRange, I.evalVec arg with
      | some paramRange, some value =>
        if !(paramRange.containsR (value.foldl Rng.join Rng.emptyR)) then
          [mkError arg "Range of argument is outside of the range of the formal parameter"]
        else []
      | _, _ => []
  else if paramType.getBase == .record then
    if !(paramType.getRecordFields.sameAs argType.getRecordFields) then
      [mkError arg "Argument has incompatible type"]
    else []
  else if paramType.getBase == .channel then
    if channelCapability argType < channelCapability paramType then
      [mkError arg "Incompatible channel type"]
    else []
  else []

/-- The array-stripping while loop of TypeChecker::checkParameterCompatible.
In the source an evaluator failure on an array size is caught and, release
builds eliding assert(0), ignored. -/
def checkParamLoop (I : Interp) :
    Ty → Ty → Bool → Bool → Bool → Expr → List Diag
  | .array _ psize psub, argType, lhs, ref, constant, arg =>
    if argType.getBase != .array then
      [mkError arg "Incompatible argument to array parameter"]
    else
      (match I.evalInt argType.getArraySize, I.evalInt psize with
       | some argSize, some paramSize =>
         if argSize != paramSize then
           [mkError arg "Parameter array size does not match argument array size"]
         else []
       | _, _ => []) ++
      checkParamLoop I psub argType.getSub lhs ref constant arg
  | paramType, argType, lhs, ref, constant, arg =>
    checkParamBase I paramType argType lhs ref constant arg

/-- TypeChecker::checkParameterCompatible — entry: boolean/integer
coercion for non-reference parameters, the left-value requirement for
non-constant references, then the loop over array layers and the per-base
rules. -/
def checkParameterCompatible (I : Interp) (paramType : Ty) (arg : Expr) :
    List Diag :=
  let ref := paramType.getPre.reference
  let constant := paramType.getPre.constant
  let lhs := isLHSValue arg
  let argType := arg.getType
  let ci :=
    if !ref && paramType.getBase == .int && argType.getBase == .bool then
      (Ty.int noPre (constExpr 0) (constExpr 1), false)
    else if !ref && paramType.getBase == .bool && argType.getBase == .int then
      (tBOOL, false)
    else (argType, lhs)
  if ref && !constant && !ci.2 then
    [mkError arg "Reference parameter requires left value argument"]
  else
    checkParamLoop I paramType ci.1 ci.2 ref constant arg

/-- The parameter loop of TypeChecker::checkFunctionCallArguments. -/
def checkCallArgs (I : Interp) : FieldList → Expr → Nat → List Diag
  | .nil, _, _ => []
  | .cons f rest, e, i =>
    checkParameterCompatible I f.ty (e.get i) ++ checkCallArgs I rest e (i + 1)

/-- TypeChecker::checkFunctionCallArguments. -/
def checkFunctionCallArguments (I : Interp) (e : Expr) : List Diag :=
  let ps := (e.get 0).getType.getParameters.fields
  if ps.length > e.getSize - 1 then
    [mkError e "Too few arguments"]
  else if ps.length < e.getSize - 1 then
    ((List.range e.getSize).drop (ps.length + 1)).map
      (fun i => mkError (e.get i) "Too many arguments")
  else
    checkCallArgs I ps e 1

mutual

/-- TypeChecker::annotate — annotate children first, then assign a type to
the node according to its kind, emitting diagnostics along the way. The
source mutates the type slot in place; here the annotated expression is
returned together with the emitted diagnostics, in emission order. -/
def annotate (I : Interp) : Expr → Expr × List Diag
  | .empty => (.empty, [])
  | .node k ty0 sym v sd cs =>
    let r := annotateList I cs
    let e' := Expr.node k ty0 sym v sd r.1
    let ds0 := r.2
    match k with
    | .EQ | .NEQ =>
      if isInteger (e'.get 0) && isInteger (e'.get 1) then
        (e'.setType tINT, ds0)
      else if (e'.get 0).getType.getBase == .record
          && (e'.get 0).getType.getRecordFields.sameAs
              ((e'.get 1).getType.getRecordFields) then
        (e'.setType tINT, ds0)
      else
        match typeOfBinaryNonInt (e'.get 0) k (e'.get 1) with
        | some t => (e'.setType t, ds0)
        | Option.none =>
          (e'.setType tCONSTRAINT,
           ds0 ++ [mkError e' "Invalid operands to binary operator"])
    | .PLUS | .MINUS | .MULT | .DIV | .MOD | .BIT_AND | .BIT_OR | .BIT_XOR
    | .BIT_LSHIFT | .BIT_RSHIFT | .AND | .OR | .MIN | .MAX
    | .LT | .LE | .GE | .GT =>
      if isInteger (e'.get 0) && isInteger (e'.get 1) then
        (e'.setType tINT, ds0)
      else
        match typeOfBinaryNonInt (e'.get 0) k (e'.get 1) with
        | some t => (e'.setType t, ds0)
        | Option.none =>
          (e'.setType tCONSTRAINT,
           ds0 ++ [mkError e' "Invalid operands to binary operator"])
    | .NOT =>
      if isInteger (e'.get 0) then (e'.setType tINT, ds0)
      else if isConstraint (e'.get 0) then (e'.setType tCONSTRAINT, ds0)
      else (e'.setType tINT, ds0 ++ [mkError e' "Invalid operation for type"])
    | .UNARY_MINUS =>
      if !isInteger (e'.get 0) then
        (e'.setType tINT, ds0 ++ [mkError e' "Invalid operation for type"])
      else (e'.setType tINT, ds0)
    | .ASSIGN =>
      let ds1 :=
        if !areAssignmentCompatible (e'.get 0).getType (e'.get 1).getType then
          [mkError e' "Incompatible types"]
        else if !isLHSValue (e'.get 0) then
          [mkError (e'.get 0) "Left hand side value expected"]
        else []
      (e'.setType (e'.get 0).getType, ds0 ++ ds1)
    | .ASSPLUS | .ASSMINUS | .ASSDIV | .ASSMOD | .ASSMULT
    | .ASSAND | .ASSOR | .ASSXOR | .ASSLSHIFT | .ASSRSHIFT =>
      let ds1 :=
        if !isInteger (e'.get 0) || !isInteger (e'.get 1) then
          [mkError e' "Non-integer types must use regular assignment operator."]
        else if !isLHSValue (e'.get 0) then
          [mkError (e'.get 0) "Left hand side value expected"]
        else []
      (e'.setType (e'.get 0).getType, ds0 ++ ds1)
    | .POSTINCREMENT | .PREINCREMENT | .POSTDECREMENT | .PREDECREMENT =>
      let ds1 :=
        if (e'.get 0).getType.getBase != .int then
          [mkError e' "Argument must be an integer value"]
        else if !isLHSValue (e'.get 0) then
          [mkError (e'.get 0) "Left hand side value expected"]
        else []
      (e'.setType tINT, ds0 ++ ds1)
    | .INLINEIF =>
      let d1 :=
        if !isInteger (e'.get 0) then
          [mkError e' "First argument of inline if must be an integer"]
        else []
      let d2 :=
        if !areInlineIfCompatible (e'.get 1).getType (e'.get 2).getType then
          [mkError e' "Incompatible arguments to inline if"]
        else []
      (e'.setType (e'.get 1).getType, ds0 ++ d1 ++ d2)
    | .COMMA =>
      let d1 :=
        if (!isInteger (e'.get 0) && !isClock (e'.get 0) && !isRecord (e'.get 0))
            || (!isInteger (e'.get 1) && !isClock (e'.get 1)
                && !isRecord (e'.get 1)) then
          [mkError e' "Arguments must be of integer, clock or record type"]
        else []
      (e'.setType (e'.get 1).getType, ds0 ++ d1)
    | .FUNCALL =>
      if (e'.get 0).getType.getBase != .func then
        (e', ds0 ++ [mkError (e'.get 0) "A function name was expected here"])
      else
        (e', ds0 ++ checkFunctionCallArguments I e')
    | _ => (e', ds0)

/-- Annotation of all children, left to right. -/
def annotateList (I : Interp) : ExprList → ExprList × List Diag
  | .nil => (.nil, [])
  | .cons e r =>
    let a := annotate I e
    let b := annotateList I r
    (.cons a.1 b.1, a.2 ++ b.2)

end

/-- A transition: guard, synchronisation and assignment expressions (the
source and target states play no role in type checking). -/
structure Transition where
  guard : Expr
  sync : Expr
  assign : Expr

/-- TypeChecker::visitTransition — check the guard, the synchronisation
(including the urgent and broadcast-receiver clock guard rules) and the
assignment of one transition. -/
def visitTransition (I : Interp) (pv : List Nat) (t : Transition) :
    List Diag :=
  let rg := annotate I t.guard
  let guard' := rg.1
  let gErrs :=
    if !isGuard guard' then [mkError guard' "Invalid guard"]
    else if !isSideEffectFree pv guard' then
      [mkError guard' "Guard must be side effect free"]
    else []
  let syncPart :=
    if !t.sync.isEmptyE then
      let rs := annotate I t.sync
      let sync' := rs.1
      let seErr :=
        if !isSideEffectFree pv sync' then
          [mkError sync' "Synchronisation must be side effect free"]
        else []
      let channel := (sync'.get 0).getType
      let hasClockGuard := !guard'.isEmptyE && !isInteger guard'
      let isUrgent := channel.getPre.urgent
      let receivesBroadcast :=
        channel.getPre.broadcast && sync'.getSyncDir == .que
      rs.2 ++ seErr
        ++ (if isUrgent && hasClockGuard then
              [mkError sync' "Clock guards are not allowed on urgent transitions."]
            else [])
        ++ (if receivesBroadcast && hasClockGuard then
              [mkError sync' "Clock guards are not allowed on broadcast receivers."]
            else [])
    else []
  let ra := annotate I t.assign
  let assign' := ra.1
  let aErrs :=
    if !isInteger assign' && !isClock assign' && !isRecord assign' then
      [mkError assign' "Invalid assignment expression"]
    else []
  let wrns :=
    if !(assign'.getKind == .CONSTANT && assign'.getValue == 1)
        && isSideEffectFree pv assign' then
      [mkWarning assign' "Expression does not have any effect"]
    else []
  rg.2 ++ gErrs ++ syncPart ++ ra.2 ++ aErrs ++ wrns

/-- The per-argument body of TypeChecker::visitInstance: annotate the
argument, require side-effect freedom, classify the (reference, constant,
computable) triple against the three accepted cases and, on acceptance,
run the parameter compatibility check. -/
def visitInstanceArg (I : Interp) (pv : List Nat) (parameter : Ty)
    (argument : Expr) : List Diag :=
  let ra := annotate I argument
  let arg' := ra.1
  if !isSideEffectFree pv arg' then
    ra.2 ++ [mkError arg' "Argument must be side effect free"]
  else
    let ref := parameter.getPre.reference
    let constant := parameter.getPre.constant
    let computable := !(arg'.dependsOn pv)
    if !(ref && constant && computable)
        && !(if ref then isUniqueReference pv arg' else computable) then
      ra.2 ++ [mkError arg' "Incompatible argument"]
    else
      ra.2 ++ checkParameterCompatible I parameter arg'

/-- TypeChecker::visitInstance — check every argument of the instance
mapping in order. -/
def visitInstance (I : Interp) (pv : List Nat) :
    List (Ty × Expr) → List Diag
  | [] => []
  | (p, a) :: rest => visitInstanceArg I pv p a ++ visitInstance I pv rest

/-- An InitialiserException: the faulting expression and the message. -/
structure Fault where
  pos : Expr
  msg : String

/-- The (uint32_t) cast applied to the evaluated array dimension in the
array branch of checkInitialiser. -/
def u32 (n : Int) : Nat := (n % 4294967296).toNat

/-- Size bound for in-bounds field access, used for termination of the
initialiser checker. -/
def sizeOfFieldTyLt :
    (fl : FieldList) → (i : Nat) → i < fl.length →
    sizeOf (fl.get i).ty < sizeOf fl
  | .cons f _, 0, _ => by
    cases f with
    | mk n t => simp [FieldList.get, Field.ty]; omega
  | .cons _ r, i + 1, h => by
    have ih := sizeOfFieldTyLt r i (by simp [FieldList.length] at h; omega)
    simp [FieldList.get]
    omega

mutual

/-- TypeChecker::checkInitialiser(type_t, expression_t) — validate an
initialiser against a declared type. Diagnostics emitted through the
handler are returned in the first component; a raised
InitialiserException is the second component. -/
def checkInitialiser (I : Interp) : Ty → Expr → List Diag × Option Fault
  | .array _ asize sub, init =>
    if init.getKind != .LIST then
      ([], some ⟨init, "Invalid array initialiser"⟩)
    else
      match I.evalInt asize with
      | Option.none =>
        ([], some ⟨init, "Arrays with parameterized size cannot have an initialiser"⟩)
      | some dim =>
        if init.getSize > u32 dim then
          ([], some ⟨init, "Excess elements in array initialiser"⟩)
        else
          let fields := init.getType.getRecordFields.fields
          match checkInitArray I sub fields init.children with
          | (ds, some f) => (ds, some f)
          | (ds, Option.none) =>
            if fields.length < u32 dim then
              (ds, some ⟨init, "Missing fields in initialiser"⟩)
            else (ds, Option.none)
  | .bool _, init =>
    if !isInteger init then ([], some ⟨init, "Invalid initialiser"⟩)
    else ([], Option.none)
  | .int _ lo hi, init =>
    if !isInteger init then ([], some ⟨init, "Invalid initialiser"⟩)
    else if lo.isEmptyE then ([], Option.none)
    else
      match I.evalInt init, I.evalRange (lo, hi) with
      | some n, some range =>
        if !(range.containsI n) then
          ([], some ⟨init, "Initialiser is out of range"⟩)
        else ([], Option.none)
      | _, _ => ([], Option.none)
  | .record _ frame@(.mk _ flds), init =>
    if frame.sameAs init.getType.getRecordFields then ([], Option.none)
    else if init.getKind != .LIST then
      ([], some ⟨init, "Invalid initialiser for struct"⟩)
    else
      match checkInitRecord I flds
          (init.getType.getRecordFields.fields) init.children 0
          (List.replicate flds.length false) with
      | (ds, _, some f) => (ds, some f)
      | (ds, hasInit, Option.none) =>
        if hasInit.all (fun b => b) then (ds, Option.none)
        else (ds, some ⟨init, "Incomplete initialiser"⟩)
  | _, _ => ([], Option.none)
termination_by t _ => (sizeOf t, 0)

/-- The element loop of the ARRAY branch of checkInitialiser: named
designators are rejected and every element is checked against the
subtype; a raised fault aborts the iteration. -/
def checkInitArray (I : Interp) (sub : Ty) :
    FieldList → ExprList → List Diag × Option Fault
  | .nil, _ => ([], Option.none)
  | .cons f frest, cs =>
    if f.name.isSome then
      ([], some ⟨cs.get 0, "Unknown field specified in initialiser"⟩)
    else
      match checkInitialiser I sub (cs.get 0) with
      | (ds, some fault) => (ds, some fault)
      | (ds, Option.none) =>
        match checkInitArray I sub frest cs.tail with
        | (ds2, r2) => (ds ++ ds2, r2)
termination_by fl _ => (sizeOf sub, 1 + sizeOf fl)

/-- The element loop of the RECORD branch of checkInitialiser: a cursor
walks the declared fields, jumping on named designators; unknown fields
and excess elements stop the loop with an error, duplicated fields are
reported and skipped, and each element is checked against its field
type. Returns the diagnostics, the per-field initialisation flags and an
optionally raised fault. -/
def checkInitRecord (I : Interp) (fields : FieldList) :
    FieldList → ExprList → Nat → List Bool →
    List Diag × List Bool × Option Fault
  | .nil, _, _, hasInit => ([], hasInit, Option.none)
  | .cons f frest, cs, current, hasInit =>
    let c := cs.get 0
    match
      (match f.name with
       | some nm => fields.idxOf nm
       | Option.none => some current) with
    | Option.none => ([mkError c "Unknown field"], hasInit, Option.none)
    | some cur =>
      if _h : fields.length ≤ cur then
        ([mkError c "Excess elements in intialiser"], hasInit, Option.none)
      else if hasInit.getD cur false then
        match checkInitRecord I fields frest cs.tail (cur + 1) hasInit with
        | (ds, hi2, ff) =>
          (mkError c "Multiple initialisers for field" :: ds, hi2, ff)
      else
        let hasInit2 := hasInit.set cur true
        match checkInitialiser I (fields.get cur).ty c with
        | (dsc, some fault) => (dsc, hasInit2, some fault)
        | (dsc, Option.none) =>
          match checkInitRecord I fields frest cs.tail (cur + 1) hasInit2 with
          | (ds, hi2, ff) => (dsc ++ ds, hi2, ff)
termination_by fl _ _ _ => (sizeOf fields, 1 + sizeOf fl)
decreasing_by
  all_goals simp_wf
  all_goals
    first
      | exact Prod.Lex.left _ _ (sizeOfFieldTyLt fields cur (by omega))
      | apply Prod.Lex.right
        simp

end

/-- A declared variable or constant: its symbol and an optional
initialiser expression. -/
structure Variable where
  uid : Symbol
  expr : Expr

/-- TypeChecker::checkInitialiser(variable_t) — annotate the initialiser,
require it constant and side effect free, then check it against the
declared type, converting a raised InitialiserException into one error. -/
def checkInitialiserVar (I : Interp) (pv : List Nat) (var : Variable) :
    List Diag :=
  if var.expr.isEmptyE then []
  else
    let ra := annotate I var.expr
    let e' := ra.1
    if e'.dependsOn pv then
      ra.2 ++ [mkError e' "Constant expression expected"]
    else if !isSideEffectFree pv e' then
      ra.2 ++ [mkError e' "Initialiser must not have side effects"]
    else
      match checkInitialiser I var.uid.ty e' with
      | (ds, some fault) => ra.2 ++ ds ++ [mkError fault.pos fault.msg]
      | (ds, Option.none) => ra.2 ++ ds

mutual

/-- Builder invariant: at every IDENTIFIER node the CONSTANT prefix of the
expression type slot agrees with that of the resolved symbol type. The
system builder (outside the given source) creates identifier expressions
typed by their symbol, so checked systems satisfy this. -/
def identTypesOk : Expr → Bool
  | .empty => true
  | .node k ty sym _ _ cs =>
    (if k == .IDENTIFIER then
       ty.getPre.constant == (symTyOf sym).getPre.constant
     else true)
      && ExprList.identTypesOkL cs

/-- Pointwise identTypesOk over children. -/
def ExprList.identTypesOkL : ExprList → Bool
  | .nil => true
  | .cons e r => identTypesOk e && ExprList.identTypesOkL r

end

/-- Every message checkParamBase or checkParamLoop can emit. -/
def cpcMsgs : List String :=
  ["Reference parameter requires left value argument",
   "Incompatible argument to array parameter",
   "Parameter array size does not match argument array size",
   "Incompatible argument",
   "Range of argument does not match range of formal parameter",
   "Range of argument is outside of the range of the formal parameter",
   "Argument has incompatible type",
   "Incompatible channel type"]

/-- Every message the parameter checker can emit when every constant
evaluation fails: the array size mismatch and the range containment
messages require a successful evaluation. -/
def cpcFailMsgs : List String :=
  ["Reference parameter requires left value argument",
   "Incompatible argument to array parameter",
   "Incompatible argument",
   "Range of argument does not match range of formal parameter",
   "Argument has incompatible type",
   "Incompatible channel type"]

/-- Every message annotate can emit, directly or through the function
call argument checker. -/
def annMsgs : List String :=
  ["Invalid operands to binary operator",
   "Invalid operation for type",
   "Incompatible types",
   "Left hand side value expected",
   "Non-integer types must use regular assignment operator.",
   "Argument must be an integer value",
   "First argument of inline if must be an integer",
   "Incompatible arguments to inline if",
   "Arguments must be of integer, clock or record type",
   "A function name was expected here",
   "Too few arguments",
   "Too many arguments"] ++ cpcMsgs

/-- A concrete interpreter for the witnesses: it evaluates CONSTANT
expressions to their value and fails elsewhere. -/
def cInterp : Interp :=
  ⟨fun e =>
    match e with
    | .node .CONSTANT _ _ v _ _ => some v
    | _ => Option.none,
   fun e =>
    match e with
    | .node .CONSTANT _ _ v _ _ => some [v]
    | _ => Option.none⟩

/-- Witness fixture: a clock symbol. -/
def wClockSym : Symbol := .mk 0 tCLOCK

/-- Witness fixture: a clock identifier. -/
def wClockId : Expr := .node .IDENTIFIER tCLOCK (some wClockSym) 0 .bang .nil

/-- Witness fixture: an integer identifier over a non-constant symbol. -/
def wIntId : Expr :=
  .node .IDENTIFIER tINT (some (.mk 1 tINT)) 0 .bang .nil

/-- Witness fixture: the guard x < 5 over the clock x. -/
def wGuard : Expr :=
  .node .LT (.void noPre) Option.none 0 .bang
    (.cons wClockId (.cons (constExpr 5) .nil))

/-- Witness fixture: an urgent broadcast channel type. -/
def wChanTy : Ty := .channel ⟨false, false, true, true⟩

/-- Witness fixture: a receive synchronisation on the urgent broadcast
channel. -/
def wSync : Expr :=
  .node .SYNC (.void noPre) Option.none 0 .que
    (.cons (.node .IDENTIFIER wChanTy (some (.mk 2 wChanTy)) 0 .bang .nil) .nil)

/-- Witness fixture: a transition with guard x < 5, the receive sync and
the implicit assignment constant 1. -/
def wTrans : Transition := ⟨wGuard, wSync, constExpr 1⟩

/-- Witness fixture: a plain channel type. -/
def wChanPlainTy : Ty := .channel noPre

/-- Witness fixture: an identifier over a plain channel. -/
def wChanArg : Expr :=
  .node .IDENTIFIER wChanPlainTy (some (.mk 3 wChanPlainTy)) 0 .bang .nil

/-- Witness fixture: an urgent channel type. -/
def wUrgChanTy : Ty := .channel ⟨false, false, true, false⟩

/-- Witness fixture: an identifier over an urgent channel. -/
def wUrgChanArg : Expr :=
  .node .IDENTIFIER wUrgChanTy (some (.mk 4 wUrgChanTy)) 0 .bang .nil

/-- Witness fixture: an integer identifier whose declared range is the
pair of constants 0 and 2. -/
def wIntRefArg : Expr :=
  .node .IDENTIFIER (Ty.int noPre (constExpr 0) (constExpr 2))
    (some (.mk 5 (Ty.int noPre (constExpr 0) (constExpr 2)))) 0 .bang .nil


theorem countMsg_append (m : String) (a b : List Diag) :
    countMsg m (a ++ b) = countMsg m a + countMsg m b := by
  simp [countMsg]

theorem countMsg_zero_of_mem (m : String) (L : List String) (ds : List Diag)
    (hds : ∀ d ∈ ds, d.msg ∈ L) (hm : m ∉ L) : countMsg m ds = 0 := by
  simp only [countMsg, List.length_eq_zero, List.filter_eq_nil_iff]
  intro d hd
  have h1 := hds d hd
  have hne : ¬(d.msg = m) := fun h => hm (h ▸ h1)
  simp [hne]

/-- C10: annotate returns an empty expression unchanged and emits no
diagnostic on it; an empty guard passes the isGuard check through the
empty case of isInvariant, its base being distinct from GUARD and not
integer. -/
theorem annotate_empty_no_effect :
    (∀ I : Interp, annotate I Expr.empty = (Expr.empty, []))
    ∧ isGuard Expr.empty = true
    ∧ isInvariant Expr.empty = true
    ∧ isInteger Expr.empty = false
    ∧ (Expr.empty.getType.getBase == Base.guard) = false :=
  ⟨fun _ => rfl, rfl, rfl, rfl, rfl⟩

/-- C2: the record branch of areAssignmentCompatible inverts frame
equality — it rejects two RECORD types sharing the same frame and accepts
two RECORD types with different frames, contradicting the intended
accept-iff-identical-frames rule. -/
theorem areAssignmentCompatible_record_frames :
    areAssignmentCompatible (Ty.record noPre (Frame.mk 0 .nil))
        (Ty.record noPre (Frame.mk 0 .nil)) = false
    ∧ areAssignmentCompatible (Ty.record noPre (Frame.mk 0 .nil))
        (Ty.record noPre (Frame.mk 1 .nil)) = true :=
  ⟨rfl, rfl⟩

/-- C7 (counterexample): on a POSTINCREMENT node isLHSValue is false even
though the designated subexpression is a left value, so isLHSValue does
not equal isLHSValue of the first subexpression for POSTINCREMENT. -/
theorem isLHSValue_postincrement_cex :
    ¬(isLHSValue
        (Expr.node .POSTINCREMENT tINT Option.none 0 .bang (.cons wIntId .nil))
      = isLHSValue
        ((Expr.node .POSTINCREMENT tINT Option.none 0 .bang
            (.cons wIntId .nil)).get 0)) := by
  decide

/-- C7 (amended): isLHSValue recurses into the first subexpression for
PREINCREMENT, PREDECREMENT, ASSIGN and the compound assignments, while it
is false on POSTINCREMENT and POSTDECREMENT nodes. -/
theorem isLHSValue_assignment_kinds :
    ∀ (k : Kind) (ty : Ty) (sym : Option Symbol) (v : Int) (sd : SyncDir)
      (cs : ExprList),
      ((k = .PREINCREMENT ∨ k = .PREDECREMENT ∨ k = .ASSIGN ∨ k = .ASSPLUS
          ∨ k = .ASSMINUS ∨ k = .ASSDIV ∨ k = .ASSMOD ∨ k = .ASSMULT
          ∨ k = .ASSAND ∨ k = .ASSOR ∨ k = .ASSXOR ∨ k = .ASSLSHIFT
          ∨ k = .ASSRSHIFT) →
        isLHSValue (Expr.node k ty sym v sd cs) = isLHSValue (cs.get 0))
      ∧ ((k = .POSTINCREMENT ∨ k = .POSTDECREMENT) →
        isLHSValue (Expr.node k ty sym v sd cs) = false) := by
  intro k ty sym v sd cs
  constructor
  · intro hk
    rcases cs with _ | ⟨c0, rest⟩ <;>
      rcases hk with h|h|h|h|h|h|h|h|h|h|h|h|h <;> subst h <;> rfl
  · intro hk
    rcases hk with h|h <;> subst h <;> rcases cs with _ | ⟨c0, rest⟩ <;> rfl

theorem isLHSValue_assignment_kinds_witness :
    isLHSValue
        (Expr.node .ASSIGN tINT Option.none 0 .bang (.cons wIntId .nil))
      = isLHSValue ((ExprList.cons wIntId .nil).get 0)
    ∧ isLHSValue
        (Expr.node .POSTINCREMENT tINT Option.none 0 .bang
          (.cons wIntId .nil)) = false :=
  ⟨(isLHSValue_assignment_kinds .ASSIGN tINT Option.none 0 .bang
      (.cons wIntId .nil)).1 (Or.inr (Or.inr (Or.inl rfl))),
   (isLHSValue_assignment_kinds .POSTINCREMENT tINT Option.none 0 .bang
      (.cons wIntId .nil)).2 (Or.inl rfl)⟩

/-- C3: the clock typing rules of typeOfBinaryNonInt — PLUS of CLOCK and
INT in either order is CLOCK, MINUS of CLOCK and INT is CLOCK while MINUS
of INT and CLOCK has no type, MINUS of two CLOCKs is DIFF, LT and LE give
INVARIANT for CLOCK versus INT and GUARD for INT versus CLOCK. -/
theorem typeOfBinaryNonInt_clock_rules :
    (∀ l r : Expr, l.getType.getBase = Base.clock →
      r.getType.getBase = Base.int →
      typeOfBinaryNonInt l .PLUS r = some tCLOCK
      ∧ typeOfBinaryNonInt r .PLUS l = some tCLOCK
      ∧ typeOfBinaryNonInt l .MINUS r = some tCLOCK
      ∧ typeOfBinaryNonInt r .MINUS l = Option.none
      ∧ typeOfBinaryNonInt l .LT r = some tINVARIANT
      ∧ typeOfBinaryNonInt l .LE r = some tINVARIANT
      ∧ typeOfBinaryNonInt r .LT l = some tGUARD
      ∧ typeOfBinaryNonInt r .LE l = some tGUARD)
    ∧ (∀ l r : Expr, l.getType.getBase = Base.clock →
        r.getType.getBase = Base.clock →
        typeOfBinaryNonInt l .MINUS r = some tDIFF) := by
  constructor
  · intro l r hl hr
    simp [typeOfBinaryNonInt, isClock, isInteger, isDiff, hl, hr]
  · intro l r hl hr
    simp [typeOfBinaryNonInt, isClock, isInteger, isDiff, hl, hr]

theorem typeOfBinaryNonInt_clock_rules_witness :
    (typeOfBinaryNonInt wClockId .PLUS (constExpr 1) = some tCLOCK
      ∧ typeOfBinaryNonInt (constExpr 1) .PLUS wClockId = some tCLOCK
      ∧ typeOfBinaryNonInt wClockId .MINUS (constExpr 1) = some tCLOCK
      ∧ typeOfBinaryNonInt (constExpr 1) .MINUS wClockId = Option.none
      ∧ typeOfBinaryNonInt wClockId .LT (constExpr 1) = some tINVARIANT
      ∧ typeOfBinaryNonInt wClockId .LE (constExpr 1) = some tINVARIANT
      ∧ typeOfBinaryNonInt (constExpr 1) .LT wClockId = some tGUARD
      ∧ typeOfBinaryNonInt (constExpr 1) .LE wClockId = some tGUARD)
    ∧ typeOfBinaryNonInt wClockId .MINUS wClockId = some tDIFF :=
  ⟨typeOfBinaryNonInt_clock_rules.1 wClockId (constExpr 1) rfl rfl,
   typeOfBinaryNonInt_clock_rules.2 wClockId wClockId rfl rfl⟩

theorem checkParamBase_msgs (I : Interp) (p a : Ty) (lhs ref c : Bool)
    (arg : Expr) : ∀ d ∈ checkParamBase I p a lhs ref c arg, d.msg ∈ cpcMsgs := by
  intro d hd
  simp only [checkParamBase] at hd
  repeat' split at hd
  all_goals simp_all [cpcMsgs, mkError]

theorem checkParamLoop_msgs (I : Interp) :
    ∀ (p a : Ty) (lhs ref c : Bool) (arg : Expr),
      ∀ d ∈ checkParamLoop I p a lhs ref c arg, d.msg ∈ cpcMsgs := by
  intro p a lhs ref c arg
  induction p, a, lhs, ref, c, arg using checkParamLoop.induct I with
  | case1 pp psize psub aT lhs ref c arg h =>
    intro d hd
    simp only [checkParamLoop, h, if_true] at hd
    simp_all [cpcMsgs, mkError]
  | case2 pp psize psub aT lhs ref c arg h ih =>
    intro d hd
    simp only [checkParamLoop] at hd
    rw [if_neg h] at hd
    rw [List.mem_append] at hd
    rcases hd with hd | hd
    · split at hd
      · split at hd <;> simp_all [cpcMsgs, mkError]
      · simp at hd
    · exact ih d hd
  | case3 pT aT lhs ref c arg hne =>
    intro d hd
    cases pT <;>
      first
        | exact absurd rfl (hne _ _ _)
        | (simp only [checkParamLoop] at hd
           exact checkParamBase_msgs I _ aT lhs ref c arg d hd)

theorem checkParameterCompatible_msgs (I : Interp) (p : Ty) (arg : Expr) :
    ∀ d ∈ checkParameterCompatible I p arg, d.msg ∈ cpcMsgs := by
  intro d hd
  simp only [checkParameterCompatible] at hd
  repeat' split at hd
  all_goals
    first
      | exact checkParamLoop_msgs I _ _ _ _ _ _ d hd
      | simp_all [cpcMsgs, mkError]

theorem checkCallArgs_msgs (I : Interp) :
    ∀ (fl : FieldList) (e : Expr) (i : Nat),
      ∀ d ∈ checkCallArgs I fl e i, d.msg ∈ cpcMsgs
  | .nil, e, i => by simp [checkCallArgs]
  | .cons f rest, e, i => by
    intro d hd
    simp only [checkCallArgs, List.mem_append] at hd
    rcases hd with hd | hd
    · exact checkParameterCompatible_msgs I f.ty (e.get i) d hd
    · exact checkCallArgs_msgs I rest e (i + 1) d hd

theorem checkFunctionCallArguments_msgs (I : Interp) (e : Expr) :
    ∀ d ∈ checkFunctionCallArguments I e, d.msg ∈ annMsgs := by
  intro d hd
  simp only [checkFunctionCallArguments] at hd
  split at hd
  · simp_all [annMsgs, mkError]
  · split at hd
    · simp only [List.mem_map] at hd
      obtain ⟨i, -, rfl⟩ := hd
      simp [annMsgs, mkError]
    · have h1 := checkCallArgs_msgs I _ e 1 d hd
      rw [annMsgs, List.mem_append]
      exact Or.inr h1

mutual

theorem annotate_msgs (I : Interp) :
    ∀ (e : Expr), ∀ d ∈ (annotate I e).2, d.msg ∈ annMsgs
  | .empty => by simp [annotate]
  | .node k ty0 sym v sd cs => by
    have hcs := annotateList_msgs I cs
    intro d hd
    cases k
    all_goals simp only [annotate] at hd
    all_goals repeat' split at hd
    all_goals
      try simp only [List.mem_append, List.mem_singleton, List.not_mem_nil,
        or_false, false_or] at hd
    all_goals try casesm* _ ∨ _
    all_goals
      first
        | exact hcs d hd
        | exact checkFunctionCallArguments_msgs I _ d hd
        | (rename_i hx
           first
             | exact hcs d hx
             | (subst hx; simp [mkError, annMsgs, cpcMsgs])
             | exact checkFunctionCallArguments_msgs I _ d hx)

theorem annotateList_msgs (I : Interp) :
    ∀ (l : ExprList), ∀ d ∈ (annotateList I l).2, d.msg ∈ annMsgs
  | .nil => by simp [annotateList]
  | .cons e r => by
    have h1 := annotate_msgs I e
    have h2 := annotateList_msgs I r
    intro d hd
    simp only [annotateList, List.mem_append] at hd
    rcases hd with hd | hd
    · exact h1 d hd
    · exact h2 d hd

end

theorem countMsg_nil (m : String) : countMsg m [] = 0 := rfl

theorem countMsg_error_single (m m' : String) (e : Expr) :
    countMsg m [mkError e m'] = if m' == m then 1 else 0 := by
  by_cases h : m' == m <;> simp_all [countMsg, mkError]

theorem countMsg_warn_single (m m' : String) (e : Expr) :
    countMsg m [mkWarning e m'] = 0 := by
  simp [countMsg, mkWarning]

/-- C1: for a transition with a non-empty sync whose annotated guard is
non-empty and not integer typed (a clock-bearing guard), visitTransition
emits exactly one "Clock guards are not allowed on urgent transitions."
error when the synchronised channel carries the URGENT prefix, and exactly
one "Clock guards are not allowed on broadcast receivers." error when the
channel carries the BROADCAST prefix and the sync is a receive. -/
theorem visitTransition_clock_guard_errors :
    ∀ (I : Interp) (pv : List Nat) (t : Transition),
      t.sync.isEmptyE = false →
      (annotate I t.guard).1.isEmptyE = false →
      isInteger (annotate I t.guard).1 = false →
      ((((annotate I t.sync).1.get 0).getType.getPre.urgent = true →
          countMsg "Clock guards are not allowed on urgent transitions."
            (visitTransition I pv t) = 1)
        ∧ (((annotate I t.sync).1.get 0).getType.getPre.broadcast = true →
            (annotate I t.sync).1.getSyncDir = SyncDir.que →
            countMsg "Clock guards are not allowed on broadcast receivers."
              (visitTransition I pv t) = 1)) := by
  intro I pv t hs hg hgi
  have z1 := countMsg_zero_of_mem
    "Clock guards are not allowed on urgent transitions." annMsgs
    (annotate I t.guard).2 (annotate_msgs I t.guard) (by decide)
  have z2 := countMsg_zero_of_mem
    "Clock guards are not allowed on urgent transitions." annMsgs
    (annotate I t.sync).2 (annotate_msgs I t.sync) (by decide)
  have z3 := countMsg_zero_of_mem
    "Clock guards are not allowed on urgent transitions." annMsgs
    (annotate I t.assign).2 (annotate_msgs I t.assign) (by decide)
  have w1 := countMsg_zero_of_mem
    "Clock guards are not allowed on broadcast receivers." annMsgs
    (annotate I t.guard).2 (annotate_msgs I t.guard) (by decide)
  have w2 := countMsg_zero_of_mem
    "Clock guards are not allowed on broadcast receivers." annMsgs
    (annotate I t.sync).2 (annotate_msgs I t.sync) (by decide)
  have w3 := countMsg_zero_of_mem
    "Clock guards are not allowed on broadcast receivers." annMsgs
    (annotate I t.assign).2 (annotate_msgs I t.assign) (by decide)
  constructor
  · intro h1
    simp only [visitTransition, hs, hg, hgi, h1, Bool.not_false, Bool.not_true,
      Bool.and_self, Bool.true_and, if_true, countMsg_append]
    rw [z1, z2, z3]
    repeat' split
    all_goals
      simp_all [countMsg_nil, countMsg_error_single, countMsg_warn_single]
  · intro h1 h2
    simp only [visitTransition, hs, hg, hgi, h1, h2, Bool.not_false,
      Bool.not_true, Bool.and_self, Bool.true_and, if_true, countMsg_append]
    rw [w1, w2, w3]
    repeat' split
    all_goals
      simp_all [countMsg_nil, countMsg_error_single, countMsg_warn_single]

theorem visitTransition_clock_guard_errors_witness :
    countMsg "Clock guards are not allowed on urgent transitions."
        (visitTransition cInterp [] wTrans) = 1
    ∧ countMsg "Clock guards are not allowed on broadcast receivers."
        (visitTransition cInterp [] wTrans) = 1 :=
  ⟨(visitTransition_clock_guard_errors cInterp [] wTrans rfl rfl rfl).1 rfl,
   (visitTransition_clock_guard_errors cInterp [] wTrans rfl rfl rfl).2 rfl rfl⟩

/-- C4: channelCapability is 0 for URGENT channels, 1 for non-urgent
BROADCAST channels and 2 otherwise, and a channel argument reaching the
per-base rules of checkParameterCompatible is accepted exactly when its
capability is at least the capability of the parameter, the error
"Incompatible channel type" being emitted otherwise. -/
theorem checkParameterCompatible_channel_capability :
    (∀ p : Pre,
      (p.urgent = true → channelCapability (Ty.channel p) = 0)
      ∧ (p.urgent = false → p.broadcast = true →
          channelCapability (Ty.channel p) = 1)
      ∧ (p.urgent = false → p.broadcast = false →
          channelCapability (Ty.channel p) = 2))
    ∧ (∀ (I : Interp) (pp ap : Pre) (arg : Expr),
        arg.getType = Ty.channel ap →
        (pp.reference = true → pp.constant = false → isLHSValue arg = true) →
        ((checkParameterCompatible I (Ty.channel pp) arg = [] ↔
            channelCapability (Ty.channel pp) ≤ channelCapability (Ty.channel ap))
          ∧ (channelCapability (Ty.channel ap) < channelCapability (Ty.channel pp) →
              checkParameterCompatible I (Ty.channel pp) arg
                = [mkError arg "Incompatible channel type"]))) := by
  constructor
  · intro p
    refine ⟨fun h => ?_, fun h1 h2 => ?_, fun h1 h2 => ?_⟩ <;>
      simp [channelCapability, Ty.getPre, *]
  · intro I pp ap arg hty hlhs
    have hcond : (pp.reference && !pp.constant && !(isLHSValue arg)) = false := by
      by_cases hr : pp.reference
      · by_cases hc : pp.constant
        · simp [hr, hc]
        · have hl := hlhs hr (by simpa using hc)
          simp [hr, hc, hl]
      · simp [hr]
    have hred : checkParameterCompatible I (Ty.channel pp) arg
        = (if channelCapability (Ty.channel ap) < channelCapability (Ty.channel pp)
           then [mkError arg "Incompatible channel type"] else []) := by
      simp only [checkParameterCompatible, hty, Ty.getBase, Ty.getPre]
      simp only [checkParamLoop, checkParamBase, Ty.getBase, hty]
      simp [hcond, hty]
    rw [hred]
    constructor
    · split
      · rename_i hlt
        constructor
        · intro habs; exact absurd habs (by simp)
        · intro hle; omega
      · rename_i hge
        simp at hge
        simp [hge]
    · intro hlt
      simp [hlt]

theorem checkParameterCompatible_channel_capability_witness :
    channelCapability (Ty.channel ⟨false, false, true, false⟩) = 0
    ∧ (checkParameterCompatible cInterp (Ty.channel ⟨false, false, false, true⟩)
          wChanArg = []
        ↔ channelCapability (Ty.channel ⟨false, false, false, true⟩)
            ≤ channelCapability (Ty.channel noPre))
    ∧ checkParameterCompatible cInterp (Ty.channel noPre) wUrgChanArg
        = [mkError wUrgChanArg "Incompatible channel type"] :=
  ⟨(checkParameterCompatible_channel_capability.1 ⟨false, false, true, false⟩).1 rfl,
   (checkParameterCompatible_channel_capability.2 cInterp
      ⟨false, false, false, true⟩ noPre wChanArg rfl (by decide)).1,
   (checkParameterCompatible_channel_capability.2 cInterp noPre
      ⟨false, false, true, false⟩ wUrgChanArg rfl (by decide)).2 (by decide)⟩

/-- C5: for an INT type with a declared range and an integer-typed
initialiser, checkInitialiser raises the "Initialiser is out of range"
fault exactly when the initialiser value and both range bounds evaluate
and the value lies outside the range; when the evaluator fails on the
value or on a bound it passes silently with no diagnostic and no fault. -/
theorem checkInitialiser_int_range :
    ∀ (I : Interp) (p : Pre) (lo hi init : Expr),
      lo.isEmptyE = false →
      isInteger init = true →
      ((checkInitialiser I (Ty.int p lo hi) init
          = ([], some ⟨init, "Initialiser is out of range"⟩)
        ↔ (∃ n r, I.evalInt init = some n ∧ I.evalRange (lo, hi) = some r
            ∧ r.containsI n = false))
      ∧ ((I.evalInt init = Option.none ∨ I.evalRange (lo, hi) = Option.none) →
          checkInitialiser I (Ty.int p lo hi) init = ([], Option.none))) := by
  intro I p lo hi init hlo hint
  rcases h1 : I.evalInt init with _ | n
  · constructor
    · rw [checkInitialiser.eq_def]
      simp [hint, hlo, h1]
    · intro _
      rw [checkInitialiser.eq_def]
      simp [hint, hlo, h1]
  · rcases h2 : I.evalRange (lo, hi) with _ | r
    · constructor
      · rw [checkInitialiser.eq_def]
        simp [hint, hlo, h1, h2]
      · intro _
        rw [checkInitialiser.eq_def]
        simp [hint, hlo, h1, h2]
    · constructor
      · rw [checkInitialiser.eq_def]
        simp only [hint, hlo, h1, h2, Bool.not_true, Bool.false_eq_true,
          if_false]
        by_cases hc : r.containsI n <;> simp [hc, h1, h2]
      · intro hfail
        rcases hfail with hf | hf <;> simp_all

theorem checkInitialiser_int_range_witness :
    checkInitialiser cInterp (Ty.int noPre (constExpr 0) (constExpr 10))
        (constExpr 42)
      = ([], some ⟨constExpr 42, "Initialiser is out of range"⟩) :=
  (checkInitialiser_int_range cInterp noPre (constExpr 0) (constExpr 10)
      (constExpr 42) rfl rfl).1.mpr ⟨42, ⟨0, 10⟩, rfl, rfl, rfl⟩

/-- C6: for a side-effect free instance argument, visitInstance proceeds
to the parameter-compatibility check, without emitting "Incompatible
argument", exactly when the parameter is a constant reference with a
computable argument, or a reference with a unique-reference argument, or
a value parameter with a computable argument, computable meaning the
annotated argument does not depend on the persistent variables. -/
theorem visitInstanceArg_accept :
    ∀ (I : Interp) (pv : List Nat) (parameter : Ty) (argument : Expr),
      isSideEffectFree pv (annotate I argument).1 = true →
      ((((parameter.getPre.reference = true ∧ parameter.getPre.constant = true
            ∧ (annotate I argument).1.dependsOn pv = false)
          ∨ (parameter.getPre.reference = true
              ∧ isUniqueReference pv (annotate I argument).1 = true)
          ∨ (parameter.getPre.reference = false
              ∧ (annotate I argument).1.dependsOn pv = false)) →
          visitInstanceArg I pv parameter argument
            = (annotate I argument).2
              ++ checkParameterCompatible I parameter (annotate I argument).1)
        ∧ (¬ ((parameter.getPre.reference = true ∧ parameter.getPre.constant = true
            ∧ (annotate I argument).1.dependsOn pv = false)
          ∨ (parameter.getPre.reference = true
              ∧ isUniqueReference pv (annotate I argument).1 = true)
          ∨ (parameter.getPre.reference = false
              ∧ (annotate I argument).1.dependsOn pv = false)) →
          visitInstanceArg I pv parameter argument
            = (annotate I argument).2
              ++ [mkError (annotate I argument).1 "Incompatible argument"])) := by
  intro I pv parameter argument hse
  constructor
  · intro hacc
    rcases hacc with ⟨h1, h2, h3⟩ | ⟨h1, h2⟩ | ⟨h1, h2⟩
    · simp [visitInstanceArg, hse, h1, h2, h3]
    · simp [visitInstanceArg, hse, h1, h2]
    · simp [visitInstanceArg, hse, h1, h2]
  · intro hrej
    by_cases hr : parameter.getPre.reference
    · by_cases hu : isUniqueReference pv (annotate I argument).1
      · exact absurd (Or.inr (Or.inl ⟨hr, hu⟩)) hrej
      · by_cases hc : parameter.getPre.constant
        · by_cases hcomp : (annotate I argument).1.dependsOn pv
          · simp [visitInstanceArg, hse, hr, hu, hc, hcomp]
          · exact absurd (Or.inl ⟨hr, hc, by simpa using hcomp⟩) hrej
        · simp [visitInstanceArg, hse, hr, hu, hc]
    · by_cases hcomp : (annotate I argument).1.dependsOn pv
      · simp [visitInstanceArg, hse, hr, hcomp]
      · exact absurd
          (Or.inr (Or.inr ⟨by simpa using hr, by simpa using hcomp⟩)) hrej

theorem visitInstanceArg_accept_witness :
    visitInstanceArg cInterp [] tINT (constExpr 7)
      = (annotate cInterp (constExpr 7)).2
        ++ checkParameterCompatible cInterp tINT
            (annotate cInterp (constExpr 7)).1 :=
  (visitInstanceArg_accept cInterp [] tINT (constExpr 7) rfl).1
    (Or.inr (Or.inr ⟨rfl, rfl⟩))

theorem checkParamBase_failInterp_msgs (p a : Ty) (lhs ref c : Bool)
    (arg : Expr) :
    ∀ d ∈ checkParamBase failInterp p a lhs ref c arg, d.msg ∈ cpcFailMsgs := by
  intro d hd
  simp only [checkParamBase] at hd
  repeat' split at hd
  all_goals simp_all [cpcFailMsgs, mkError, failInterp, Interp.evalRange]

theorem checkParamLoop_failInterp_msgs :
    ∀ (p a : Ty) (lhs ref c : Bool) (arg : Expr),
      ∀ d ∈ checkParamLoop failInterp p a lhs ref c arg, d.msg ∈ cpcFailMsgs := by
  intro p a lhs ref c arg
  induction p, a, lhs, ref, c, arg using checkParamLoop.induct failInterp with
  | case1 pp psize psub aT lhs ref c arg h =>
    intro d hd
    simp only [checkParamLoop, h, if_true] at hd
    simp_all [cpcFailMsgs, mkError]
  | case2 pp psize psub aT lhs ref c arg h ih =>
    intro d hd
    simp only [checkParamLoop] at hd
    rw [if_neg h] at hd
    rw [List.mem_append] at hd
    rcases hd with hd | hd
    · split at hd
      · split at hd <;> simp_all [failInterp]
      · simp at hd
    · exact ih d hd
  | case3 pT aT lhs ref c arg hne =>
    intro d hd
    cases pT <;>
      first
        | exact absurd rfl (hne _ _ _)
        | (simp only [checkParamLoop] at hd
           exact checkParamBase_failInterp_msgs _ aT lhs ref c arg d hd)

theorem checkParameterCompatible_failInterp_msgs (p : Ty) (arg : Expr) :
    ∀ d ∈ checkParameterCompatible failInterp p arg, d.msg ∈ cpcFailMsgs := by
  intro d hd
  simp only [checkParameterCompatible] at hd
  repeat' split at hd
  all_goals
    first
      | exact checkParamLoop_failInterp_msgs _ _ _ _ _ _ d hd
      | simp_all [cpcFailMsgs, mkError]

/-- C8: when every constant evaluation fails, checkParameterCompatible
still returns (failures never escape) and no emitted diagnostic is the
array size mismatch or the range containment error; a reference integer
parameter falls back to the syntactic comparison of the declared bound
expressions, and a non-reference integer argument passes silently. -/
theorem checkParameterCompatible_eval_failure_silent :
    (∀ (p : Ty) (arg : Expr), ∀ d ∈ checkParameterCompatible failInterp p arg,
      d.msg ≠ "Parameter array size does not match argument array size"
      ∧ d.msg ≠ "Range of argument is outside of the range of the formal parameter")
    ∧ (∀ (pp : Pre) (lo hi : Expr) (arg : Expr) (ap : Pre) (alo ahi : Expr),
        pp.reference = true → lo.isEmptyE = false → isLHSValue arg = true →
        arg.getType = Ty.int ap alo ahi →
        checkParameterCompatible failInterp (Ty.int pp lo hi) arg
          = (if Expr.equalE lo alo && Expr.equalE hi ahi then []
             else [mkError arg
               "Range of argument does not match range of formal parameter"]))
    ∧ (∀ (pp : Pre) (lo hi : Expr) (arg : Expr) (ap : Pre) (alo ahi : Expr),
        pp.reference = false → lo.isEmptyE = false → isLHSValue arg = false →
        arg.getType = Ty.int ap alo ahi →
        checkParameterCompatible failInterp (Ty.int pp lo hi) arg = []) := by
  refine ⟨?_, ?_, ?_⟩
  · intro p arg d hd
    have hm := checkParameterCompatible_failInterp_msgs p arg d hd
    constructor <;> (intro heq; rw [heq] at hm; exact absurd hm (by decide))
  · intro pp lo hi arg ap alo ahi href hlo hlhs hty
    simp only [checkParameterCompatible, hty, href, Ty.getBase, Ty.getPre]
    simp only [checkParamLoop, checkParamBase, Ty.getBase, Ty.getRange, hty,
      hlo, hlhs, failInterp, Interp.evalRange]
    by_cases h1 : Expr.equalE lo alo <;> by_cases h2 : Expr.equalE hi ahi <;>
      simp_all
  · intro pp lo hi arg ap alo ahi href hlo hlhs hty
    simp only [checkParameterCompatible, hty, href, Ty.getBase, Ty.getPre]
    simp only [checkParamLoop, checkParamBase, Ty.getBase, Ty.getRange, hty,
      hlo, hlhs, failInterp, Interp.evalRange]
    simp

theorem checkParameterCompatible_eval_failure_silent_witness :
    ((mkError wIntRefArg
        "Range of argument does not match range of formal parameter").msg
      ≠ "Parameter array size does not match argument array size")
    ∧ checkParameterCompatible failInterp
        (Ty.int ⟨false, true, false, false⟩ (constExpr 0) (constExpr 1))
        wIntRefArg
      = (if Expr.equalE (constExpr 0) (constExpr 0)
            && Expr.equalE (constExpr 1) (constExpr 2) then []
         else [mkError wIntRefArg
           "Range of argument does not match range of formal parameter"])
    ∧ checkParameterCompatible failInterp
        (Ty.int noPre (constExpr 0) (constExpr 1)) (constExpr 5) = [] :=
  ⟨(checkParameterCompatible_eval_failure_silent.1
      (Ty.int ⟨false, true, false, false⟩ (constExpr 0) (constExpr 1))
      wIntRefArg
      (mkError wIntRefArg
        "Range of argument does not match range of formal parameter")
      (List.Mem.head _)).1,
   checkParameterCompatible_eval_failure_silent.2.1
     ⟨false, true, false, false⟩ (constExpr 0) (constExpr 1) wIntRefArg
     noPre (constExpr 0) (constExpr 2) rfl rfl rfl rfl,
   checkParameterCompatible_eval_failure_silent.2.2
     noPre (constExpr 0) (constExpr 1) (constExpr 5) noPre .empty .empty
     rfl rfl rfl rfl⟩

set_option maxHeartbeats 2000000 in
/-- C9: the unique-reference predicate is stronger than the left-value
predicate: on any expression whose identifier nodes carry the type of
their resolved symbol (as the system builder produces them),
isUniqueReference implies isLHSValue. -/
theorem isUniqueReference_implies_isLHSValue :
    ∀ (pv : List Nat) (e : Expr),
      identTypesOk e = true → isUniqueReference pv e = true →
      isLHSValue e = true := by
  intro pv e
  induction e using isUniqueReference.induct pv
  all_goals intro hok hu
  all_goals try simp [identTypesOk, ExprList.identTypesOkL] at hok
  all_goals try simp [isUniqueReference] at hu
  all_goals try casesm* _ ∧ _
  all_goals
    try (simp only [isLHSValue, ExprList.get]; solve_by_elim)
  all_goals
    simp only [isLHSValue]
    simp_all


theorem isUniqueReference_implies_isLHSValue_witness :
    identTypesOk wIntId = true ∧ isUniqueReference [] wIntId = true
    ∧ isLHSValue wIntId = true :=
  ⟨rfl, rfl, isUniqueReference_implies_isLHSValue [] wIntId rfl rfl⟩

end UTAP
